import Mathlib

/-!
Verification of the session/token authentication core of the `aim` backend.

The development shallowly embeds the Python source:

* `src/aim/domain/user/session.py` — token payloads, the JWT codec wrapper
  `_decode_token`, the `Session` entity and its constructors.
* `src/aim/domain/user/user.py` — password validation, rehash-on-login.
* `src/aim/domain/user/users.py` — the `Users` aggregate (`new`).
* `src/aim/domain/user/config.py` — `Config` with the two TTL constants.
* `src/aim/application/session.py` — `login_by_password`.
* `src/aim/application/authorization.py` — the `required` middleware.

Modelling conventions:

* The system clock (`int(time.time())`) is an explicit `now : Int` argument.
* `uuid.uuid4()` is an explicit `freshId : String` argument.
* A JWT string is modelled symbolically: `JwtToken.signed claims secret` is the
  output of `jwt.encode(claims, secret)`, and `JwtToken.malformed raw` stands
  for every other string (for example the empty string).  `jwt.decode` with
  `algorithms=["HS256"]` verifies the signature (here: secret equality) and
  then validates an embedded integer `exp` claim against the clock; PyJWT
  raises `ExpiredSignatureError` when `exp` is not in the future.
* Python exceptions become `Except` / `Option` results; the three
  authorization exception classes (which carry no payload) and `ValueError`
  become constructors of `AppError`.
* MD5 and Argon2 are opaque cryptographic functions, passed in as a `Crypto`
  bundle; properties that depend on the hash round trip take them as
  hypotheses on the bundle.
* Python floats: `try_refresh_access_token` compares against
  `0.2 * exp_refresh_token`.  The literal `0.2` is modelled as the rational
  `1/5`; the binary64 value of `0.2` differs from `1/5` by a relative error
  below `2 ^ (-54)`, which cannot change the comparison for the integer
  operands the program uses.
-/

/-- A value stored in a JWT claims map (the program only stores strings and
integers). -/
inductive ClaimValue where
  | str (s : String)
  | int (n : Int)
deriving DecidableEq, Repr

/-- A JWT claims map, as produced by the payload serializers. -/
abbrev Claims := List (String × ClaimValue)

/-- First value bound to a key in a claims map, like a Python dict lookup. -/
def Claims.get (c : Claims) (k : String) : Option ClaimValue :=
  match c with
  | [] => none
  | (k₀, v) :: rest => if k₀ = k then some v else Claims.get rest k

/-- Symbolic model of a token string: either the output of
`jwt.encode(claims, secret)` or any other string (structurally malformed). -/
inductive JwtToken where
  | signed (claims : Claims) (secret : String)
  | malformed (raw : String)
deriving DecidableEq, Repr

/-- Model of `jwt.encode(claims, secret)` (default algorithm HS256). -/
def jwtEncode (claims : Claims) (secret : String) : JwtToken :=
  .signed claims secret

/-- Model of `jwt.decode(token, secret, algorithms=["HS256"])` returning the
claims, or `none` when PyJWT raises: structurally malformed input, signature
mismatch (wrong secret), or an embedded integer `exp` claim that is not in
the future (`ExpiredSignatureError`); a non-integer `exp` is a decode error
as well.  A token without an `exp` claim skips expiry validation. -/
def jwtDecode (token : JwtToken) (secret : String) (now : Int) : Option Claims :=
  match token with
  | .malformed _ => none
  | .signed claims s =>
    if s = secret then
      match claims.get "exp" with
      | some (.int e) => if e ≤ now then none else some claims
      | some _ => none
      | none => some claims
    else none

/-- String value bound to a key, used by payload deserializers. -/
def Claims.getStr (c : Claims) (k : String) : Option String :=
  match c.get k with
  | some (.str s) => some s
  | _ => none

/-- Integer value bound to a key, used by payload deserializers. -/
def Claims.getInt (c : Claims) (k : String) : Option Int :=
  match c.get k with
  | some (.int n) => some n
  | _ => none

/-- `AccessTokenPayload` from `src/aim/domain/user/session.py`. -/
structure AccessTokenPayload where
  session_id : String
  user_id : Int
  username : String
  expire_at : Int
deriving DecidableEq, Repr

/-- `AccessTokenPayload._to_claims`. -/
def AccessTokenPayload.to_claims (p : AccessTokenPayload) : Claims :=
  [("sid", .str p.session_id), ("uid", .int p.user_id),
   ("uname", .str p.username), ("exp", .int p.expire_at)]

/-- `AccessTokenPayload._form_claims` [sic]: reads the four required keys,
`KeyError` (here `none`) when one is missing.  The Python constructor performs
no runtime type check; a key bound to a value of the wrong type never arises
from a token this development analyses, and is mapped to `none`. -/
def AccessTokenPayload.form_claims (c : Claims) : Option AccessTokenPayload := do
  let sid ← c.getStr "sid"
  let uid ← c.getInt "uid"
  let uname ← c.getStr "uname"
  let exp ← c.getInt "exp"
  pure ⟨sid, uid, uname, exp⟩

/-- `RefershTokenPayload` [sic] from `src/aim/domain/user/session.py`. -/
structure RefershTokenPayload where
  session_id : String
  user_id : Int
  expire_at : Int
deriving DecidableEq, Repr

/-- `RefershTokenPayload._to_claims`. -/
def RefershTokenPayload.to_claims (p : RefershTokenPayload) : Claims :=
  [("sid", .str p.session_id), ("uid", .int p.user_id), ("exp", .int p.expire_at)]

/-- `RefershTokenPayload._form_claims`. -/
def RefershTokenPayload.form_claims (c : Claims) : Option RefershTokenPayload := do
  let sid ← c.getStr "sid"
  let uid ← c.getInt "uid"
  let exp ← c.getInt "exp"
  pure ⟨sid, uid, exp⟩

/-- `Config` from `src/aim/domain/user/config.py`. -/
structure Config where
  jwt_secret : String
  exp_access_token : Int
  exp_refresh_token : Int
deriving DecidableEq, Repr

/-- `Config.new`: the secret is read from the certificate file (modelled as the
given string); the TTL constants are fixed to 5 minutes and 30 days. -/
def Config.new (jwt_secret : String) : Config :=
  { jwt_secret := jwt_secret
    exp_access_token := 5 * 60
    exp_refresh_token := 30 * 24 * 60 * 60 }

/-- `_decode_token(config, AccessTokenPayload, token)`: JWT decode, then parse
the claims; every failure (including a missing key) yields `None`. -/
def decode_access_token (cfg : Config) (token : JwtToken) (now : Int) :
    Option AccessTokenPayload :=
  match jwtDecode token cfg.jwt_secret now with
  | none => none
  | some claims => AccessTokenPayload.form_claims claims

/-- `_decode_token(config, RefershTokenPayload, token)`. -/
def decode_refresh_token (cfg : Config) (token : JwtToken) (now : Int) :
    Option RefershTokenPayload :=
  match jwtDecode token cfg.jwt_secret now with
  | none => none
  | some claims => RefershTokenPayload.form_claims claims

/-- The application-layer error taxonomy: the three authorization exception
classes from `aim/application/exceptions` (each constructed with no
arguments, hence payload-free) plus Python `ValueError` carrying its
message. -/
inductive AppError where
  | invalidCredentials
  | missingToken
  | invalidToken
  | valueError (msg : String)
deriving DecidableEq, Repr

/-- `UserData` from `src/aim/domain/user/user.py`.  `password_type` is the
string value of the `_PasswordTypes` StrEnum. -/
structure UserData where
  id : Int
  name : String
  password_type : String
  password_hash : String
deriving DecidableEq, Repr

/-- The cryptographic primitives the program calls, passed in as opaque
functions: `hashlib.md5(...).hexdigest()`, `argon2.PasswordHasher().verify`
(hash first, then candidate), `check_needs_rehash`, and `hash`. -/
structure Crypto where
  md5 : String → String
  argon2Verify : String → String → Bool
  argon2NeedsRehash : String → Bool
  argon2Hash : String → String

/-- `User._validate_password`: match on `password_type` in source order
(md5, argon2, none, wildcard); the wildcard raises `ValueError`.  Argon2
verification mismatch is the caught `VerifyMismatchError`, an ordinary
`(False, False)` result. -/
def validate_password (crypto : Crypto) (u : UserData) (password : String) :
    Except AppError (Bool × Bool) :=
  if u.password_type = "md5" then
    let hash := crypto.md5 password
    let valid := hash = u.password_hash
    .ok (valid, valid)
  else if u.password_type = "argon2" then
    if crypto.argon2Verify u.password_hash password then
      .ok (true, crypto.argon2NeedsRehash u.password_hash)
    else
      .ok (false, false)
  else if u.password_type = "none" then
    .ok (false, false)
  else
    .error (.valueError u.password_type)

/-- `User._hash_password`: always the modern Argon2 scheme. -/
def hash_password (crypto : Crypto) (password : String) : String × String :=
  ("argon2", crypto.argon2Hash password)

/-- `User.reset_password`: re-derive both fields together, then save.  The
second component records the `repository.save` calls performed. -/
def User.reset_password (crypto : Crypto) (u : UserData) (new_password : String) :
    UserData × List UserData :=
  let th := hash_password crypto new_password
  let u₁ := { u with password_type := th.1, password_hash := th.2 }
  (u₁, [u₁])

/-- The `Session` entity from `src/aim/domain/user/session.py`; `config` is
the `_config` reference stored by `__init__`. -/
structure Session where
  id : String
  access_token : JwtToken
  access_payload : AccessTokenPayload
  refresh_token : Option JwtToken
  config : Config
deriving DecidableEq, Repr

/-- The `user: User | AccessTokenPayload` union taken by
`_new_access_token`. -/
inductive UserOrPayload where
  | user (u : UserData)
  | payload (p : AccessTokenPayload)
deriving DecidableEq, Repr

/-- `_new_access_token`: expiry is `now + exp_access_token`; identity fields
come from the payload or from the user record. -/
def new_access_token (cfg : Config) (session_id : String) (u : UserOrPayload)
    (now : Int) : JwtToken × AccessTokenPayload :=
  let expire_at := now + cfg.exp_access_token
  let ids : Int × String :=
    match u with
    | .payload p => (p.user_id, p.username)
    | .user usr => (usr.id, usr.name)
  let payload : AccessTokenPayload :=
    { session_id := session_id, user_id := ids.1, username := ids.2,
      expire_at := expire_at }
  (jwtEncode payload.to_claims cfg.jwt_secret, payload)

/-- `_new_refresh_token`: NOTE the source computes
`expire_at = int(time.time()) + config.exp_access_token`, binding the
refresh expiry to the access-token TTL constant. -/
def new_refresh_token (cfg : Config) (session_id : String) (u : UserData)
    (now : Int) : JwtToken :=
  let expire_at := now + cfg.exp_access_token
  let payload : RefershTokenPayload :=
    { session_id := session_id, user_id := u.id, expire_at := expire_at }
  jwtEncode payload.to_claims cfg.jwt_secret

/-- `Session.new`: fresh uuid4 id (the `freshId` argument), access token and
refresh token minted at clock reading `now`. -/
def Session.new (cfg : Config) (u : UserData) (now : Int) (freshId : String) :
    Session :=
  let tp := new_access_token cfg freshId (.user u) now
  let refresh_token := new_refresh_token cfg freshId u now
  { id := freshId, access_token := tp.1, access_payload := tp.2,
    refresh_token := some refresh_token, config := cfg }

/-- `Session.try_refresh_access_token`: refresh when
`expire_at - now < 0.2 * exp_refresh_token` (the refresh TTL as denominator;
`0.2` modelled as the rational `1/5`, see the header note), regenerating the
access pair from the old payload under the same session id.  Returns the
Python return value together with the post-state of the mutated session. -/
def Session.try_refresh_access_token (s : Session) (now : Int) :
    Bool × Session :=
  if ((s.access_payload.expire_at - now : Int) : ℚ) <
      (s.config.exp_refresh_token : ℚ) / 5 then
    let tp := new_access_token s.config s.id (.payload s.access_payload) now
    (true, { s with access_token := tp.1, access_payload := tp.2 })
  else
    (false, s)

/-- `Session._from_access_token`: decode, then rebuild a session with no
refresh token, the session id taken from the payload. -/
def Session.from_access_token (cfg : Config) (token : JwtToken) (now : Int) :
    Option Session :=
  match decode_access_token cfg token now with
  | none => none
  | some payload =>
    some { id := payload.session_id, access_token := token,
           access_payload := payload, refresh_token := none, config := cfg }

/-- `Session._from_refresh_token`: decode the refresh token; the source then
checks `payload.user_id != payload.user_id` (kept verbatim here); re-fetch
the user via `users.find` (modelled as the lookup function `find`); mint a
brand-new id and access pair; attach the presented token unchanged. -/
def Session.from_refresh_token (cfg : Config) (find : Int → Option UserData)
    (token : JwtToken) (now : Int) (freshId : String) : Option Session :=
  match decode_refresh_token cfg token now with
  | none => none
  | some payload =>
    if payload.user_id ≠ payload.user_id then none
    else
      match find payload.user_id with
      | none => none
      | some user =>
        let tp := new_access_token cfg freshId (.user user) now
        some { id := freshId, access_token := tp.1, access_payload := tp.2,
               refresh_token := some token, config := cfg }

/-- `User.login`: validate the password (a `ValueError` from an unsupported
stored type propagates); on an invalid password return `None`; on a valid
one, rehash-and-save first when `need_rehash`, then create the session from
the (possibly updated) user.  The result carries the session, the post-state
of the user record and the list of `save` calls performed. -/
def User.login (crypto : Crypto) (cfg : Config) (u : UserData)
    (password : String) (now : Int) (freshId : String) :
    Except AppError (Option (Session × UserData × List UserData)) :=
  match validate_password crypto u password with
  | .error e => .error e
  | .ok vr =>
    if vr.1 then
      let us : UserData × List UserData :=
        if vr.2 then User.reset_password crypto u password else (u, [])
      .ok (some (Session.new cfg us.1 now freshId, us.1, us.2))
    else
      .ok none

/-- `Users.new` from `src/aim/domain/user/users.py`: a fresh user starts with
`password_type = _PasswordTypes.NONE` (string value "none") and an empty
hash.  The generated id is the `id` argument. -/
def Users.new (id : Int) (name : String) : UserData :=
  { id := id, name := name, password_type := "none", password_hash := "" }

/-- `login_by_password` from `src/aim/application/session.py`: absent user
and failed `user.login` both raise the payload-free
`InvalidAuthorizationCredentials`.  On success the session and the save
calls performed by the login are returned. -/
def login_by_password (crypto : Crypto) (cfg : Config)
    (find : Int → Option UserData) (user_id : Int) (password : String)
    (now : Int) (freshId : String) :
    Except AppError (Session × List UserData) :=
  match find user_id with
  | none => .error .invalidCredentials
  | some u =>
    match User.login crypto cfg u password now freshId with
    | .error e => .error e
    | .ok none => .error .invalidCredentials
    | .ok (some r) => .ok (r.1, r.2.2)

namespace App

/-- `AccessTokenPayload` from `src/aim/application/authorization.py` (the
middleware variant: no `session_id` field). -/
structure AccessTokenPayload where
  user_id : Int
  username : String
  expire_at : Int
deriving DecidableEq, Repr

/-- `AccessTokenPayload._to_claims` (authorization.py variant). -/
def AccessTokenPayload.to_claims (p : App.AccessTokenPayload) : Claims :=
  [("uid", .int p.user_id), ("uname", .str p.username), ("exp", .int p.expire_at)]

/-- `AccessTokenPayload._form_claims` (authorization.py variant). -/
def AccessTokenPayload.form_claims (c : Claims) : Option App.AccessTokenPayload := do
  let uid ← c.getInt "uid"
  let uname ← c.getStr "uname"
  let exp ← c.getInt "exp"
  pure ⟨uid, uname, exp⟩

/-- The Python type annotation found on the first declared parameter of a
wrapped handler: the middleware recognizes exactly its own
`AccessTokenPayload` and `Session` classes; everything else (including the
domain `Session` class from `aim.domain.user`, a different class) falls
through to `other`. -/
inductive PyAnnot where
  | accessTokenPayload
  | session
  | other
deriving DecidableEq, Repr

/-- The `need_param` value computed at wrap time. -/
inductive NeedParam where
  | payload
  | session
  | noParam
deriving DecidableEq, Repr

/-- Wrap-time inspection in `required`: look at the first parameter of the
handler signature (when there is one) and record which identity argument the
handler declares. -/
def classify_handler (params : List PyAnnot) : NeedParam :=
  match params with
  | [] => .noParam
  | a :: _ =>
    match a with
    | .accessTokenPayload => .payload
    | .session => .session
    | .other => .noParam

/-- The positional-argument list a wrapped handler is invoked with: either
the decoded payload prepended to the forwarded arguments, or the forwarded
arguments alone. -/
inductive HandlerCall (α : Type) where
  | withPayload (p : App.AccessTokenPayload) (args : List α)
  | plain (args : List α)
deriving DecidableEq, Repr

/-- The `decorator` closure inside `required`: `MissingAuthorizationToken`
when the token is `None` (every present token in this model is a string, so
the `isinstance` guard adds nothing); then `jwt.decode` plus
`_form_claims`, any exception becoming `InvalidAuthorizationToken`; then the
dispatch on `need_param`.  The result records the positional arguments the
wrapped handler is invoked with. -/
def decorator {α : Type} (need : NeedParam) (jwt_secret : String) (now : Int)
    (token : Option JwtToken) (args : List α) :
    Except AppError (HandlerCall α) :=
  match token with
  | none => .error .missingToken
  | some tok =>
    match jwtDecode tok jwt_secret now with
    | none => .error .invalidToken
    | some claims =>
      match App.AccessTokenPayload.form_claims claims with
      | none => .error .invalidToken
      | some payload =>
        match need with
        | .payload => .ok (.withPayload payload args)
        | .session => .ok (.plain args)
        | .noParam => .ok (.plain args)

end App

/-! ## Concrete fixtures shared by witnesses -/

/-- A concrete configuration with the production TTL constants. -/
def cfgA : Config := Config.new "sec"

/-- A concrete access payload expiring at time 1000000. -/
def payloadA : AccessTokenPayload :=
  { session_id := "sid", user_id := 1, username := "alice", expire_at := 1000000 }

/-- A concrete session holding `payloadA` and no refresh token. -/
def sessionA : Session :=
  { id := "sid", access_token := jwtEncode payloadA.to_claims "sec",
    access_payload := payloadA, refresh_token := none, config := cfgA }

/-- A toy instantiation of the cryptographic bundle, labelling hashes by
scheme, with a sound Argon2 round trip and fresh parameters. -/
def toyCrypto : Crypto :=
  { md5 := fun p => "m:" ++ p
    argon2Verify := fun h p => h = "a:" ++ p
    argon2NeedsRehash := fun _ => false
    argon2Hash := fun p => "a:" ++ p }

/-! ## C2 -/

/-- C2: `Session.new` builds the refresh token from a payload whose
`expire_at` is `now + exp_access_token` (the access-token TTL constant), for
every user and config; under `Config.new` that constant is 5 minutes while
the configured refresh TTL is 30 days. -/
theorem session_new_refresh_expiry_is_access_ttl (cfg : Config) (u : UserData)
    (now : Int) (freshId : String) (secret : String) :
    (Session.new cfg u now freshId).refresh_token =
      some (jwtEncode
        (RefershTokenPayload.to_claims
          { session_id := freshId, user_id := u.id,
            expire_at := now + cfg.exp_access_token }) cfg.jwt_secret) ∧
    (Config.new secret).exp_access_token = 5 * 60 ∧
    (Config.new secret).exp_refresh_token = 30 * 24 * 60 * 60 :=
  ⟨rfl, rfl, rfl⟩

/-! ## C3 -/

/-- C3: `try_refresh_access_token` returns `false` and leaves the session
unchanged exactly when `expire_at - now` is at least one fifth of the
configured refresh TTL; below that threshold it replaces only the access
token and payload, the new payload carrying the session id, the old identity
fields, and `expire_at = now + exp_access_token`, and returns `true`. -/
theorem try_refresh_access_token_spec (s : Session) (now : Int) :
    ((s.config.exp_refresh_token : ℚ) / 5 ≤
        ((s.access_payload.expire_at - now : Int) : ℚ) →
      s.try_refresh_access_token now = (false, s)) ∧
    (((s.access_payload.expire_at - now : Int) : ℚ) <
        (s.config.exp_refresh_token : ℚ) / 5 →
      s.try_refresh_access_token now =
        (true,
         { s with
            access_token := jwtEncode (AccessTokenPayload.to_claims
              { session_id := s.id, user_id := s.access_payload.user_id,
                username := s.access_payload.username,
                expire_at := now + s.config.exp_access_token })
              s.config.jwt_secret,
            access_payload :=
              { session_id := s.id, user_id := s.access_payload.user_id,
                username := s.access_payload.username,
                expire_at := now + s.config.exp_access_token } })) := by
  constructor
  · intro h
    unfold Session.try_refresh_access_token
    rw [if_neg (not_lt.mpr h)]
  · intro h
    unfold Session.try_refresh_access_token
    rw [if_pos h]
    rfl

/-- C3 witness: with `sessionA` (refresh TTL 2592000, so threshold 518400 in
rational form) the far-from-expiry call at time 0 is a no-op returning
`false`, and the near-expiry call at time 999999 returns `true`. -/
theorem try_refresh_access_token_spec_witness :
    sessionA.try_refresh_access_token 0 = (false, sessionA) ∧
    (sessionA.try_refresh_access_token 999999).1 = true := by
  constructor
  · exact (try_refresh_access_token_spec sessionA 0).1
      (by norm_num [sessionA, payloadA, cfgA, Config.new])
  · rw [(try_refresh_access_token_spec sessionA 999999).2
      (by norm_num [sessionA, payloadA, cfgA, Config.new])]

/-! ## C6 -/

/-- A concrete refresh payload expiring at time 1000000. -/
def refreshA : RefershTokenPayload :=
  { session_id := "sid", user_id := 1, expire_at := 1000000 }

/-- C6: decoding a token encoded from a valid claim set with the same secret
recovers exactly the original payload, for both payload kinds, whenever the
embedded `expire_at` lies in the future. -/
theorem decode_encode_round_trip (cfg : Config) (p : AccessTokenPayload)
    (q : RefershTokenPayload) (now : Int)
    (hp : now < p.expire_at) (hq : now < q.expire_at) :
    decode_access_token cfg (jwtEncode p.to_claims cfg.jwt_secret) now =
      some p ∧
    decode_refresh_token cfg (jwtEncode q.to_claims cfg.jwt_secret) now =
      some q := by
  constructor
  · simp [decode_access_token, jwtEncode, jwtDecode,
      AccessTokenPayload.to_claims, Claims.get, AccessTokenPayload.form_claims,
      Claims.getStr, Claims.getInt, not_le.mpr hp]
  · simp [decode_refresh_token, jwtEncode, jwtDecode,
      RefershTokenPayload.to_claims, Claims.get,
      RefershTokenPayload.form_claims, Claims.getStr, Claims.getInt,
      not_le.mpr hq]

/-- C6 witness: the round trip at time 0 for the concrete payloads expiring
at time 1000000. -/
theorem decode_encode_round_trip_witness :
    decode_access_token cfgA (jwtEncode payloadA.to_claims cfgA.jwt_secret) 0 =
      some payloadA ∧
    decode_refresh_token cfgA (jwtEncode refreshA.to_claims cfgA.jwt_secret) 0 =
      some refreshA :=
  decode_encode_round_trip cfgA payloadA refreshA 0 (by decide) (by decide)

/-! ## C5 -/

/-- Parsing access claims fails whenever a required key is absent. -/
theorem access_form_claims_none_of_missing (c : Claims)
    (h : c.get "sid" = none ∨ c.get "uid" = none ∨ c.get "uname" = none ∨
         c.get "exp" = none) :
    AccessTokenPayload.form_claims c = none := by
  rcases h with h | h | h | h
  · simp [AccessTokenPayload.form_claims, Claims.getStr, h]
  · cases hs : Claims.getStr c "sid" <;>
      simp [AccessTokenPayload.form_claims, Claims.getInt, h, hs]
  · cases hs : Claims.getStr c "sid" <;>
      cases hu : Claims.getInt c "uid" <;>
        simp [AccessTokenPayload.form_claims, Claims.getStr, h, hs, hu]
  · cases hs : Claims.getStr c "sid" <;>
      cases hu : Claims.getInt c "uid" <;>
        cases hn : Claims.getStr c "uname" <;>
          simp [AccessTokenPayload.form_claims, Claims.getInt, h, hs, hu, hn]

/-- Parsing refresh claims fails whenever a required key is absent. -/
theorem refresh_form_claims_none_of_missing (c : Claims)
    (h : c.get "sid" = none ∨ c.get "uid" = none ∨ c.get "exp" = none) :
    RefershTokenPayload.form_claims c = none := by
  rcases h with h | h | h
  · simp [RefershTokenPayload.form_claims, Claims.getStr, h]
  · cases hs : Claims.getStr c "sid" <;>
      simp [RefershTokenPayload.form_claims, Claims.getInt, h, hs]
  · cases hs : Claims.getStr c "sid" <;>
      cases hu : Claims.getInt c "uid" <;>
        simp [RefershTokenPayload.form_claims, Claims.getInt, h, hs, hu]

/-- C5: token decoding is a total function into `Option` (it never raises),
and every failure mode collapses to the single outcome `none`, for both
payload kinds: structurally malformed input, a token signed under a
different secret, an embedded `exp` claim not in the future, and a claims
map missing any required key. -/
theorem decode_token_failure_modes (cfg : Config) :
    (∀ raw now, decode_access_token cfg (.malformed raw) now = none ∧
        decode_refresh_token cfg (.malformed raw) now = none) ∧
    (∀ claims s now, s ≠ cfg.jwt_secret →
        decode_access_token cfg (.signed claims s) now = none ∧
        decode_refresh_token cfg (.signed claims s) now = none) ∧
    (∀ claims e now, claims.get "exp" = some (.int e) → e ≤ now →
        decode_access_token cfg (.signed claims cfg.jwt_secret) now = none ∧
        decode_refresh_token cfg (.signed claims cfg.jwt_secret) now = none) ∧
    (∀ claims now,
        (claims.get "sid" = none ∨ claims.get "uid" = none ∨
         claims.get "uname" = none ∨ claims.get "exp" = none) →
        decode_access_token cfg (.signed claims cfg.jwt_secret) now = none) ∧
    (∀ claims now,
        (claims.get "sid" = none ∨ claims.get "uid" = none ∨
         claims.get "exp" = none) →
        decode_refresh_token cfg (.signed claims cfg.jwt_secret) now = none) := by
  refine ⟨fun raw now => ⟨rfl, rfl⟩, fun claims s now h => ?_,
    fun claims e now hget hle => ?_, fun claims now h => ?_,
    fun claims now h => ?_⟩
  · constructor <;>
      simp [decode_access_token, decode_refresh_token, jwtDecode, h]
  · constructor <;>
      simp [decode_access_token, decode_refresh_token, jwtDecode, hget, hle]
  · unfold decode_access_token jwtDecode
    cases hget : claims.get "exp" with
    | none =>
      simp [hget, access_form_claims_none_of_missing claims h]
    | some v =>
      cases v with
      | str s => simp [hget]
      | int e =>
        by_cases hle : e ≤ now
        · simp [hget, hle]
        · simp [hget, hle, access_form_claims_none_of_missing claims h]
  · unfold decode_refresh_token jwtDecode
    cases hget : claims.get "exp" with
    | none =>
      simp [hget, refresh_form_claims_none_of_missing claims h]
    | some v =>
      cases v with
      | str s => simp [hget]
      | int e =>
        by_cases hle : e ≤ now
        · simp [hget, hle]
        · simp [hget, hle, refresh_form_claims_none_of_missing claims h]

/-- C5 witness: the empty-string token, a token under secret "other", an
expired token, and a claims map holding only "uid", each decoding to
`none` under `cfgA` (secret "sec"). -/
theorem decode_token_failure_modes_witness :
    decode_access_token cfgA (.malformed "") 0 = none ∧
    decode_access_token cfgA (.signed payloadA.to_claims "other") 0 = none ∧
    decode_access_token cfgA (.signed payloadA.to_claims "sec") 2000000 = none ∧
    decode_access_token cfgA (.signed [("uid", .int 1)] "sec") 0 = none ∧
    decode_refresh_token cfgA (.signed [("uid", .int 1)] "sec") 0 = none := by
  refine ⟨((decode_token_failure_modes cfgA).1 "" 0).1,
    ((decode_token_failure_modes cfgA).2.1 payloadA.to_claims "other" 0
      (by decide)).1,
    ((decode_token_failure_modes cfgA).2.2.1 payloadA.to_claims 1000000 2000000
      (by decide) (by decide)).1,
    (decode_token_failure_modes cfgA).2.2.2.1 [("uid", .int 1)] 0
      (Or.inl (by decide)),
    (decode_token_failure_modes cfgA).2.2.2.2 [("uid", .int 1)] 0
      (Or.inl (by decide))⟩

/-! ## C4 -/

/-- A user stored under the legacy MD5 scheme with password "hunter2" under
`toyCrypto`. -/
def userB : UserData :=
  { id := 42, name := "bob", password_type := "md5", password_hash := "m:hunter2" }

/-- A user store holding exactly `userB` under id 42. -/
def storeB : Int → Option UserData :=
  fun i => if i = 42 then some userB else none

/-- C4: `login_by_password` fails with the payload-free
`InvalidAuthorizationCredentials` both when the lookup reports the user id
absent and when the user exists but the password does not verify — the two
failure results are literally equal, so the caller cannot tell them
apart. -/
theorem login_by_password_indistinguishable_failures (crypto : Crypto)
    (cfg : Config) (find : Int → Option UserData) (user_id : Int)
    (password : String) (now : Int) (freshId : String) :
    (find user_id = none →
      login_by_password crypto cfg find user_id password now freshId =
        .error .invalidCredentials) ∧
    (∀ u b, find user_id = some u →
      validate_password crypto u password = .ok (false, b) →
      login_by_password crypto cfg find user_id password now freshId =
        .error .invalidCredentials) := by
  constructor
  · intro h
    simp [login_by_password, h]
  · intro u b hu hv
    simp [login_by_password, hu, User.login, hv]

/-- C4 witness: unknown user id 7, and user 42 with a wrong password, both
yield `InvalidAuthorizationCredentials`. -/
theorem login_by_password_indistinguishable_failures_witness :
    login_by_password toyCrypto cfgA storeB 7 "hunter2" 0 "fid" =
      .error .invalidCredentials ∧
    login_by_password toyCrypto cfgA storeB 42 "wrong" 0 "fid" =
      .error .invalidCredentials := by
  constructor
  · exact (login_by_password_indistinguishable_failures toyCrypto cfgA storeB
      7 "hunter2" 0 "fid").1 rfl
  · exact (login_by_password_indistinguishable_failures toyCrypto cfgA storeB
      42 "wrong" 0 "fid").2 userB false rfl rfl

/-! ## C7 -/

/-- C7: for a user stored under the legacy MD5 scheme with the matching
password, verification reports `(valid, needsRehash) = (true, true)`; login
then re-derives a modern Argon2 hash from the same candidate password,
persists the record with `password_type` and `password_hash` updated
together (the single save call), returns a session for the updated record,
and a subsequent verification with the same password reports
`(true, false)`.  The Argon2 round-trip behaviour of the underlying library
is taken as the two hypotheses on `crypto`. -/
theorem legacy_md5_login_migrates (crypto : Crypto) (cfg : Config)
    (u : UserData) (pw : String) (now : Int) (freshId : String)
    (htype : u.password_type = "md5")
    (hhash : u.password_hash = crypto.md5 pw)
    (hverify : crypto.argon2Verify (crypto.argon2Hash pw) pw = true)
    (hfresh : crypto.argon2NeedsRehash (crypto.argon2Hash pw) = false) :
    validate_password crypto u pw = .ok (true, true) ∧
    User.login crypto cfg u pw now freshId =
      .ok (some
        (Session.new cfg
          { u with password_type := "argon2",
                   password_hash := crypto.argon2Hash pw } now freshId,
         { u with password_type := "argon2",
                  password_hash := crypto.argon2Hash pw },
         [{ u with password_type := "argon2",
                   password_hash := crypto.argon2Hash pw }])) ∧
    validate_password crypto
      { u with password_type := "argon2",
               password_hash := crypto.argon2Hash pw } pw =
      .ok (true, false) := by
  have hv : validate_password crypto u pw = .ok (true, true) := by
    simp [validate_password, htype, hhash]
  refine ⟨hv, ?_, ?_⟩
  · simp [User.login, hv, User.reset_password, hash_password]
  · simp [validate_password, hverify, hfresh]

/-- C7 witness: `userB` (MD5 hash of "hunter2" under `toyCrypto`) with the
matching password. -/
theorem legacy_md5_login_migrates_witness :
    validate_password toyCrypto userB "hunter2" = .ok (true, true) ∧
    User.login toyCrypto cfgA userB "hunter2" 0 "fid" =
      .ok (some
        (Session.new cfgA
          { userB with password_type := "argon2",
                       password_hash := toyCrypto.argon2Hash "hunter2" } 0 "fid",
         { userB with password_type := "argon2",
                      password_hash := toyCrypto.argon2Hash "hunter2" },
         [{ userB with password_type := "argon2",
                       password_hash := toyCrypto.argon2Hash "hunter2" }])) ∧
    validate_password toyCrypto
      { userB with password_type := "argon2",
                   password_hash := toyCrypto.argon2Hash "hunter2" } "hunter2" =
      .ok (true, false) :=
  legacy_md5_login_migrates toyCrypto cfgA userB "hunter2" 0 "fid"
    rfl rfl rfl rfl

/-! ## C10 -/

/-- C10: a user whose `password_type` is "none" never authenticates —
verification is `(False, False)` and login returns `None` for every
candidate password — and `Users.new` creates exactly such a user, with
`password_type` "none" and an empty `password_hash`. -/
theorem none_password_type_never_authenticates (crypto : Crypto)
    (cfg : Config) (password : String) (now : Int) (freshId : String) :
    (∀ u : UserData, u.password_type = "none" →
      validate_password crypto u password = .ok (false, false) ∧
      User.login crypto cfg u password now freshId = .ok none) ∧
    (∀ id name, (Users.new id name).password_type = "none" ∧
      (Users.new id name).password_hash = "") := by
  constructor
  · intro u h
    have hv : validate_password crypto u password = .ok (false, false) := by
      simp [validate_password, h]
    exact ⟨hv, by simp [User.login, hv]⟩
  · intro id name
    exact ⟨rfl, rfl⟩

/-- C10 witness: a freshly created user (id 5, name "eve") rejects the
candidate password "pw". -/
theorem none_password_type_never_authenticates_witness :
    validate_password toyCrypto (Users.new 5 "eve") "pw" = .ok (false, false) ∧
    User.login toyCrypto cfgA (Users.new 5 "eve") "pw" 0 "fid" = .ok none :=
  (none_password_type_never_authenticates toyCrypto cfgA "pw" 0 "fid").1
    (Users.new 5 "eve") rfl

/-! ## C8 -/

/-- Success path of `Session._from_refresh_token`: when the refresh token
decodes and the user is found, the result is the session with the fresh id,
a fresh access pair for the re-fetched user, and the presented refresh token
attached unchanged. -/
theorem from_refresh_token_success (cfg : Config)
    (find : Int → Option UserData) (token : JwtToken) (now : Int)
    (freshId : String) (p : RefershTokenPayload) (user : UserData)
    (hd : decode_refresh_token cfg token now = some p)
    (hf : find p.user_id = some user) :
    Session.from_refresh_token cfg find token now freshId =
      some { id := freshId,
             access_token := jwtEncode (AccessTokenPayload.to_claims
               { session_id := freshId, user_id := user.id,
                 username := user.name,
                 expire_at := now + cfg.exp_access_token }) cfg.jwt_secret,
             access_payload :=
               { session_id := freshId, user_id := user.id,
                 username := user.name,
                 expire_at := now + cfg.exp_access_token },
             refresh_token := some token, config := cfg } := by
  simp [Session.from_refresh_token, hd, hf]
  exact ⟨rfl, rfl⟩

/-- C8: `from_refresh_token` fails exactly when the refresh token does not
decode or the user lookup reports the payload user id absent (the user-id
self-comparison in the source never rejects); on success the session uses
the freshly minted id (hence an id different from the payload session id
whenever the minted uuid differs from it, which is the only way a uuid4
collision could be avoided being relevant), a fresh access pair for the
re-fetched user, and the presented refresh-token string unchanged. -/
theorem from_refresh_token_spec (cfg : Config)
    (find : Int → Option UserData) (token : JwtToken) (now : Int)
    (freshId : String) :
    (Session.from_refresh_token cfg find token now freshId = none ↔
      decode_refresh_token cfg token now = none ∨
      (∃ p, decode_refresh_token cfg token now = some p ∧
        find p.user_id = none)) ∧
    (∀ p user, decode_refresh_token cfg token now = some p →
      find p.user_id = some user →
      Session.from_refresh_token cfg find token now freshId =
        some { id := freshId,
               access_token := jwtEncode (AccessTokenPayload.to_claims
                 { session_id := freshId, user_id := user.id,
                   username := user.name,
                   expire_at := now + cfg.exp_access_token }) cfg.jwt_secret,
               access_payload :=
                 { session_id := freshId, user_id := user.id,
                   username := user.name,
                   expire_at := now + cfg.exp_access_token },
               refresh_token := some token, config := cfg }) ∧
    (∀ p user s, decode_refresh_token cfg token now = some p →
      find p.user_id = some user → freshId ≠ p.session_id →
      Session.from_refresh_token cfg find token now freshId = some s →
      s.id ≠ p.session_id) := by
  refine ⟨?_, ?_, ?_⟩
  · cases hd : decode_refresh_token cfg token now with
    | none => simp [Session.from_refresh_token, hd]
    | some p =>
      cases hf : find p.user_id with
      | none => simp [Session.from_refresh_token, hd, hf]
      | some user => simp [Session.from_refresh_token, hd, hf]
  · intro p user hd hf
    exact from_refresh_token_success cfg find token now freshId p user hd hf
  · intro p user s hd hf hne hs
    rw [from_refresh_token_success cfg find token now freshId p user hd hf]
      at hs
    cases hs
    exact hne

/-- A stored user record matching `refreshA.user_id`. -/
def userC : UserData :=
  { id := 1, name := "alice", password_type := "none", password_hash := "" }

/-- A user store holding exactly `userC` under id 1. -/
def storeC : Int → Option UserData :=
  fun i => if i = 1 then some userC else none

/-- The encoded form of `refreshA` under secret "sec". -/
def tokenC : JwtToken := jwtEncode refreshA.to_claims "sec"

/-- The session `from_refresh_token` produces from `tokenC` at time 0 with
fresh id "new". -/
def sessionC : Session :=
  { id := "new",
    access_token := jwtEncode (AccessTokenPayload.to_claims
      { session_id := "new", user_id := 1, username := "alice",
        expire_at := 0 + cfgA.exp_access_token }) cfgA.jwt_secret,
    access_payload :=
      { session_id := "new", user_id := 1, username := "alice",
        expire_at := 0 + cfgA.exp_access_token },
    refresh_token := some tokenC, config := cfgA }

/-- C8 witness: redeeming `tokenC` against `storeC` succeeds with the fresh
session id "new", which differs from the session id "sid" carried in the
refresh payload. -/
theorem from_refresh_token_spec_witness :
    Session.from_refresh_token cfgA storeC tokenC 0 "new" = some sessionC ∧
    sessionC.id ≠ refreshA.session_id := by
  have hd : decode_refresh_token cfgA tokenC 0 = some refreshA := by decide
  have hs : Session.from_refresh_token cfgA storeC tokenC 0 "new" =
      some sessionC :=
    (from_refresh_token_spec cfgA storeC tokenC 0 "new").2.1 refreshA userC
      hd rfl
  exact ⟨hs, (from_refresh_token_spec cfgA storeC tokenC 0 "new").2.2
    refreshA userC sessionC hd rfl (by decide) hs⟩

/-! ## C1 -/

/-- A middleware-variant payload for user 1, expiring at time 100. -/
def appPayloadA : App.AccessTokenPayload :=
  { user_id := 1, username := "alice", expire_at := 100 }

/-- The encoded form of `appPayloadA` under secret "sec". -/
def appTokenA : JwtToken := jwtEncode appPayloadA.to_claims "sec"

/-- C1: evaluation at the failing input.  A handler declaring a
`Session`-typed first parameter is classified as `need_param = "Session"` at
wrap time, yet on a valid token the dispatch invokes it with only the
forwarded arguments — no Session (nor any identity) is prepended,
contradicting the claim and the overload declarations in the source; the
payload-typed branch does prepend the decoded payload as claimed. -/
theorem decorator_session_branch_omits_identity :
    App.classify_handler [App.PyAnnot.session] = App.NeedParam.session ∧
    App.decorator App.NeedParam.session "sec" 0 (some appTokenA) ["x"] =
      .ok (.plain ["x"]) ∧
    App.decorator App.NeedParam.payload "sec" 0 (some appTokenA) ["x"] =
      .ok (.withPayload appPayloadA ["x"]) :=
  ⟨rfl, rfl, rfl⟩

/-! ## C9 -/

/-- C9 counterexample: the empty string is a present (string) token, so the
middleware does not raise `MissingAuthorizationToken` for it as the claim
states; it proceeds to decoding and fails as
`InvalidAuthorizationToken`. -/
theorem decorator_empty_string_token_not_missing :
    App.decorator App.NeedParam.payload "sec" 0
      (some (JwtToken.malformed "")) ([] : List String) =
      .error .invalidToken ∧
    App.decorator App.NeedParam.payload "sec" 0
      (some (JwtToken.malformed "")) ([] : List String) ≠
      .error .missingToken :=
  ⟨rfl, fun hcon => absurd (Except.error.inj hcon) (by decide)⟩

/-- C9 (amended): the middleware raises `MissingAuthorizationToken` exactly
when the token is absent (`None`), before any decoding is attempted; every
present token string — the empty string included — proceeds to decoding,
and a decode failure surfaces as `InvalidAuthorizationToken` instead. -/
theorem decorator_missing_token_iff_absent {α : Type} (need : App.NeedParam)
    (secret : String) (now : Int) (args : List α) :
    App.decorator need secret now none args = .error .missingToken ∧
    (∀ tok, App.decorator need secret now (some tok) args ≠
      .error .missingToken) ∧
    (∀ raw, App.decorator need secret now (some (.malformed raw)) args =
      .error .invalidToken) := by
  refine ⟨rfl, ?_, fun raw => rfl⟩
  intro tok
  unfold App.decorator
  cases h : jwtDecode tok secret now with
  | none => simp [h]
  | some claims =>
    cases hf : App.AccessTokenPayload.form_claims claims with
    | none => simp [h, hf]
    | some p => cases need <;> simp [h, hf]

/-- C9 witness for the amended statement, at the concrete inputs of the
counterexample. -/
theorem decorator_missing_token_iff_absent_witness :
    App.decorator App.NeedParam.payload "sec" 0 none ([] : List String) =
      .error .missingToken ∧
    App.decorator App.NeedParam.payload "sec" 0
      (some (JwtToken.malformed "x")) ([] : List String) ≠
      .error .missingToken :=
  ⟨(decorator_missing_token_iff_absent App.NeedParam.payload "sec" 0 []).1,
   (decorator_missing_token_iff_absent App.NeedParam.payload "sec" 0 []).2.1
     (JwtToken.malformed "x")⟩
